import Mathlib

/-!
Shallow embedding of `src/src/components/HoldersForm.tsx` from the
token-balance-snapshot repository.

The component is a browser form.  Its handlers perform effects (calls to the
caller-supplied state setters, `update` on the field array, `toast.error`, and
one `fetch`); here each handler is embedded as a pure function from its inputs
(including the outcome of the network request, which is external to the
component) to a record of the effects it performs.  Machine-level concerns
(React re-render scheduling) are outside the embedding; the handlers' logic is
translated line by line.
-/

namespace HoldersForm

/-- `export type DurationType = 'days' | 'weeks' | 'months'` (line 51). -/
inductive DurationType where
  | days
  | weeks
  | months
  deriving DecidableEq, Repr

/-- The `duration?: string | Date` field of a form row (line 62): either a
string or a `Date` (modelled by its millisecond timestamp). -/
inductive DurationValue where
  | str (s : String)
  | date (millis : Int)
  deriving DecidableEq, Repr

/-- One element of `FormData['formData']` (lines 53-64). `duration` is an
optional field, hence `Option`. -/
structure FormRow where
  tokenId : String
  minAmount : String
  tokenName : String
  isNFT : Bool
  isDurationSelect : Bool
  durationType : DurationType
  isCollapsed : Bool
  duration : Option DurationValue
  deriving DecidableEq, Repr

/-- The `TokenDetails` payload (imported from `@/types/tokenDetails-response`);
the component reads exactly its `name` and `type` fields (lines 118-119). -/
structure TokenDetails where
  name : String
  type : String
  deriving DecidableEq, Repr

/-- Modelled from the spec: the dictionary of English UI strings
(`@/dictionary/en.json` is not under src/).  Only the two keys the component's
logic reads are modelled; their exact wording is irrelevant to the properties
proved below, which compare against these fields symbolically. -/
structure Dictionary where
  httpError : String
  wrongTokenId : String

/-- Modelled from the spec: the concrete dictionary instance. -/
def dictionary : Dictionary :=
  { httpError := "HTTP error! status:", wrongTokenId := "Wrong token id" }

/-- Modelled from the spec: the mirror-node base URL (`@/utils/const` is not
under src/).  The spec only requires a single REST endpoint; the properties
below treat the value symbolically. -/
def nodeUrl : String := "https://mainnet-public.mirrornode.hedera.com"

/-- Split a character list on the dot character. -/
def splitOnDot : List Char → List (List Char)
  | [] => [[]]
  | c :: rest =>
      let r := splitOnDot rest
      if c = '.' then [] :: r
      else
        match r with
        | [] => [[c]]
        | p :: ps => (c :: p) :: ps

/-- Modelled from the spec: `isValidTokenId` (`@/utils/isValidTokenId` is not
under src/).  Token identifiers are Hedera entity ids `shard.realm.num`: three
dot-separated non-empty decimal components.  In particular the empty string is
not a valid token id. -/
def isValidTokenId (s : String) : Bool :=
  let parts := splitOnDot s.toList
  parts.length == 3 && parts.all (fun p => !p.isEmpty && p.all Char.isDigit)

/-- Outcome of the awaited `fetch(url)` / `response.json()` pair, as seen by
`fetchTokenData` (lines 106-112): either a parsed `TokenDetails` payload from
an ok response, a non-ok response with its HTTP status, or an exception thrown
by `fetch` or by the JSON parse (carrying its `toString()` rendering). -/
inductive FetchResult where
  | ok (payload : TokenDetails)
  | httpError (status : Nat)
  | exn (message : String)
  deriving DecidableEq, Repr

/-- A request outcome that takes the `catch` branch of `fetchTokenData`. -/
def FetchResult.isFailure : FetchResult → Bool
  | .ok _ => false
  | .httpError _ => true
  | .exn _ => true

/-- The effects performed by one call to `fetchTokenData` (lines 104-140):
the toast messages emitted, the argument of the `setTokenDetailsList` call if
it was made, the row passed to `update(index, ...)`, and the value returned to
the caller (`data` on success, `undefined` on failure). -/
structure FetchOutcome where
  toasts : List String
  tokenDetailsListSet : Option (List TokenDetails)
  updatedRow : FormRow
  result : Option TokenDetails
  deriving DecidableEq, Repr

/-- The `try` block of `fetchTokenData` (lines 105-125).  `.error` is a thrown
exception: the explicit `throw new Error(...)` on a non-ok response (line 109,
whose toast rendering is `"Error: " ++ message`), or an exception from `fetch`
or `response.json()` themselves. -/
def fetchTryBlock (resp : FetchResult) (tokenDetailsList : Option (List TokenDetails))
    (formData : FormRow) : Except String FetchOutcome :=
  match resp with
  | .exn message => .error message
  | .httpError status =>
      .error ("Error: " ++ dictionary.httpError ++ " " ++ toString status)
  | .ok data =>
      .ok { toasts := []
            -- line 113: `tokenDetailsList ? [...tokenDetailsList, data] : [data]`;
            -- a JS array (even empty) is truthy, so only `undefined` takes the
            -- else branch.
            tokenDetailsListSet := some (match tokenDetailsList with
              | some l => l ++ [data]
              | none => [data])
            updatedRow :=
              { tokenId := formData.tokenId
                minAmount := formData.minAmount
                tokenName := data.name
                isNFT := data.type == "NON_FUNGIBLE_UNIQUE"
                isDurationSelect := formData.isDurationSelect
                duration := formData.duration
                isCollapsed := formData.isCollapsed
                durationType := formData.durationType }
            result := some data }

/-- `fetchTokenData` (lines 104-140).  The `Except` in the result type models
whether an exception escapes to the caller of the async function: the `catch`
block (lines 126-139) toasts the error and rewrites the row's `tokenName` to
`dictionary.wrongTokenId`, re-throwing nothing, so the error constructor is
never produced. -/
def fetchTokenData (resp : FetchResult) (tokenDetailsList : Option (List TokenDetails))
    (formData : FormRow) : Except String FetchOutcome :=
  match fetchTryBlock resp tokenDetailsList formData with
  | .ok outcome => .ok outcome
  | .error e =>
      .ok { toasts := [e]
            tokenDetailsListSet := none
            updatedRow :=
              { tokenId := formData.tokenId
                minAmount := formData.minAmount
                tokenName := dictionary.wrongTokenId
                isNFT := formData.isNFT
                isDurationSelect := formData.isDurationSelect
                duration := formData.duration
                isCollapsed := formData.isCollapsed
                durationType := formData.durationType }
            result := none }

/-- One call made by `onSubmit` (lines 142-146) to a caller-supplied callback.
`setData` receives `any`; the component only ever passes it the empty array,
modelled as an empty `List Unit`. -/
inductive CallbackCall where
  | setFormDataCall (rows : List FormRow)
  | setDataCall (d : List Unit)
  | setShouldFetchCall (b : Bool)
  deriving DecidableEq, Repr

/-- `onSubmit` (lines 142-146): the ordered list of callback calls it makes. -/
def onSubmit (data : List FormRow) : List CallbackCall :=
  [CallbackCall.setFormDataCall data, CallbackCall.setDataCall [],
   CallbackCall.setShouldFetchCall true]

/-- The submission pipeline `handleSubmit(onSubmit)` (line 177): react-hook-form
runs the schema resolver and invokes `onSubmit` only on validated data.  The
resolver (from `@/utils/formSchema`, out of scope per the spec) is abstracted by
`validate`, which yields the validated rows or rejects. -/
def handleSubmit {α : Type} (validate : α → Option (List FormRow)) (raw : α) :
    Option (List CallbackCall) :=
  (validate raw).map onSubmit

/-- The effects of one `handleTokenIdBlur` call (lines 148-157): the URLs
fetched, all toasts emitted (by `fetchTokenData` or by the handler's own
`catch`), the `setTokenDetailsList` argument if the call was made, the row
passed to `update` if any, and whether the handler's `catch` branch ran. -/
structure BlurOutcome where
  requests : List String
  toasts : List String
  tokenDetailsListSet : Option (List TokenDetails)
  updatedRow : Option FormRow
  catchReached : Bool
  deriving DecidableEq, Repr

/-- `handleTokenIdBlur` (lines 148-157).  `if (tokenId && isValidTokenId(tokenId))`:
a string is truthy iff non-empty.  `formData` is `getValues().formData[index]`,
the row captured at call time; `resp` is the outcome of the fetch issued. -/
def handleTokenIdBlur (tokenId : String) (resp : FetchResult)
    (tokenDetailsList : Option (List TokenDetails)) (formData : FormRow) : BlurOutcome :=
  if tokenId != "" && isValidTokenId tokenId then
    let url := nodeUrl ++ "/api/v1/tokens/" ++ tokenId
    match fetchTokenData resp tokenDetailsList formData with
    | .ok o =>
        { requests := [url], toasts := o.toasts,
          tokenDetailsListSet := o.tokenDetailsListSet,
          updatedRow := some o.updatedRow, catchReached := false }
    | .error e =>
        { requests := [url], toasts := [e], tokenDetailsListSet := none,
          updatedRow := none, catchReached := true }
  else
    { requests := [], toasts := [], tokenDetailsListSet := none,
      updatedRow := none, catchReached := false }

/-- `handleTokenIdChange` (lines 159-173): the argument of the `update` call if
one is made, `none` otherwise.  `if (!tokenId && !isValidTokenId(tokenId))`:
`!tokenId` holds exactly when the string is empty. -/
def handleTokenIdChange (tokenId : String) (formData : FormRow) : Option FormRow :=
  if tokenId == "" && !isValidTokenId tokenId then
    some { tokenId := formData.tokenId
           minAmount := formData.minAmount
           tokenName := ""
           isNFT := formData.isNFT
           isDurationSelect := formData.isDurationSelect
           duration := formData.duration
           isCollapsed := formData.isCollapsed
           durationType := formData.durationType }
  else none

/-- The UI events a row can receive, per the JSX (lines 178-357): blur and
change on the token-id input (lines 193-200), a toggle of the duration-mode
switch (lines 247-251), and a form submission (line 177). -/
inductive RowEvent where
  | blurEvent (tokenId : String) (resp : FetchResult)
  | changeEvent (tokenId : String)
  | switchToggle (newCheckedState : Bool)
  | submitEvent
  deriving DecidableEq, Repr

/-- The network requests issued in response to one event.  Only the blur
handler contains a `fetch` (line 106, reached via line 152); the change handler
(lines 159-173) only calls `update`, the switch toggle (lines 247-251) only
calls `setValue`, and `onSubmit` (lines 142-146) only invokes the three
callbacks. -/
def eventRequests (ev : RowEvent) (tokenDetailsList : Option (List TokenDetails))
    (formData : FormRow) : List String :=
  match ev with
  | .blurEvent tokenId resp => (handleTokenIdBlur tokenId resp tokenDetailsList formData).requests
  | .changeEvent _ => []
  | .switchToggle _ => []
  | .submitEvent => []

/-- The input widgets the JSX renders for one row (lines 178-344).  The
token-id and min-amount inputs are unconditional (lines 182-225); the block
guarded by `fields[index].isNFT` (line 228) contains the duration-mode switch
(lines 234-261) and then either the duration number input and duration-type
select (`isDurationSelect` true, lines 263-306) or the date picker (lines
308-335).  The `isCollapsed` flag only switches a CSS class (line 231), not
what is rendered. -/
inductive Widget where
  | tokenIdInput
  | minAmountInput
  | durationModeSwitch
  | durationNumberInput
  | durationTypeSelect
  | datePicker
  deriving DecidableEq, Repr

/-- The four optional time-window filter widgets. -/
def Widget.isDurationWidget : Widget → Bool
  | .tokenIdInput => false
  | .minAmountInput => false
  | .durationModeSwitch => true
  | .durationNumberInput => true
  | .durationTypeSelect => true
  | .datePicker => true

/-- The ordered widget list rendered for one row (lines 178-344). -/
def renderRow (row : FormRow) : List Widget :=
  [Widget.tokenIdInput, Widget.minAmountInput] ++
    (if row.isNFT then
      Widget.durationModeSwitch ::
        (if row.isDurationSelect then [Widget.durationNumberInput, Widget.durationTypeSelect]
         else [Widget.datePicker])
    else [])

/-- Kind of a `HoldersFormProps` member (lines 41-49): a caller-supplied
state-setter callback, or plain data passed down. -/
inductive PropKind where
  | stateSetter
  | dataValue
  deriving DecidableEq, Repr

/-- The props of `HoldersForm`, in declaration order (lines 41-49), each with
its kind: `setFormData`, `setData`, `setShouldFetch` and `setTokenDetailsList`
are function-typed state setters; `tokenDetailsList`, `isBalancesFetching` and
`progress` are plain values. -/
def holdersFormProps : List (String × PropKind) :=
  [("setFormData", PropKind.stateSetter),
   ("setData", PropKind.stateSetter),
   ("setShouldFetch", PropKind.stateSetter),
   ("setTokenDetailsList", PropKind.stateSetter),
   ("tokenDetailsList", PropKind.dataValue),
   ("isBalancesFetching", PropKind.dataValue),
   ("progress", PropKind.dataValue)]

/-- The number of caller-supplied state-setter callbacks among the props. -/
def stateSetterCount : Nat :=
  (holdersFormProps.filter (fun p => p.2 == PropKind.stateSetter)).length

/-- A sample row used by concrete witnesses. -/
def sampleRow : FormRow :=
  { tokenId := "0.0.1234", minAmount := "1", tokenName := "", isNFT := false,
    isDurationSelect := false, durationType := DurationType.days,
    isCollapsed := false, duration := some (DurationValue.str "") }

/-- A sample payload used by concrete witnesses. -/
def sampleToken : TokenDetails :=
  { name := "SampleToken", type := "NON_FUNGIBLE_UNIQUE" }

/-- The modelled validator rejects the empty string. -/
theorem isValidTokenId_empty : isValidTokenId "" = false := by decide

/-- `fetchTokenData` resolves (never rejects): its `catch` handles both failure
shapes and the success path returns normally. -/
theorem fetchTokenData_ok (resp : FetchResult) (tokenDetailsList : Option (List TokenDetails))
    (formData : FormRow) :
    ∃ o, fetchTokenData resp tokenDetailsList formData = Except.ok o := by
  cases resp <;> exact ⟨_, rfl⟩

/-- The requests issued by one blur: exactly the single token-lookup URL when
the token id is non-empty and valid, none otherwise. -/
theorem handleTokenIdBlur_requests (tokenId : String) (resp : FetchResult)
    (tokenDetailsList : Option (List TokenDetails)) (formData : FormRow) :
    (handleTokenIdBlur tokenId resp tokenDetailsList formData).requests =
      if tokenId != "" && isValidTokenId tokenId then
        [nodeUrl ++ "/api/v1/tokens/" ++ tokenId]
      else [] := by
  obtain ⟨o, ho⟩ := fetchTokenData_ok resp tokenDetailsList formData
  by_cases hc : (tokenId != "" && isValidTokenId tokenId) = true
  · simp [handleTokenIdBlur, hc, ho]
  · simp [handleTokenIdBlur, hc]

/-- Claim C1: for every submitted form that passes schema validation, `onSubmit`
hands the validated data to the caller-supplied callbacks: `setFormData` with
exactly the validated `formData` rows, `setData` with the empty array, and
`setShouldFetch` with `true` — in that order. -/
theorem onSubmit_hands_validated_data_to_callbacks {α : Type}
    (validate : α → Option (List FormRow)) (raw : α) (rows : List FormRow)
    (h : validate raw = some rows) :
    handleSubmit validate raw =
      some [CallbackCall.setFormDataCall rows, CallbackCall.setDataCall [],
            CallbackCall.setShouldFetchCall true] := by
  simp [handleSubmit, h, onSubmit]

/-- Witness for C1 at a concrete validator and input. -/
theorem onSubmit_hands_validated_data_to_callbacks_witness :
    handleSubmit (fun _ : Unit => some [sampleRow]) () =
      some [CallbackCall.setFormDataCall [sampleRow], CallbackCall.setDataCall [],
            CallbackCall.setShouldFetchCall true] :=
  onSubmit_hands_validated_data_to_callbacks (fun _ : Unit => some [sampleRow]) () [sampleRow] rfl

/-- Claim C2: every failed lookup (non-ok response, or a throwing fetch or JSON
parse) is surfaced both as a toast carrying the error and as an inline message:
the updated row's `tokenName` becomes `dictionary.wrongTokenId`. -/
theorem fetchTokenData_failure_toasts_and_marks_row (resp : FetchResult)
    (tokenDetailsList : Option (List TokenDetails)) (formData : FormRow)
    (h : resp.isFailure = true) :
    ∃ e o, fetchTryBlock resp tokenDetailsList formData = Except.error e ∧
      fetchTokenData resp tokenDetailsList formData = Except.ok o ∧
      o.toasts = [e] ∧
      o.updatedRow.tokenName = dictionary.wrongTokenId := by
  cases resp with
  | ok _ => simp [FetchResult.isFailure] at h
  | httpError status => exact ⟨_, _, rfl, rfl, rfl, rfl⟩
  | exn message => exact ⟨_, _, rfl, rfl, rfl, rfl⟩

/-- Witness for C2 at a concrete thrown error. -/
theorem fetchTokenData_failure_toasts_and_marks_row_witness :
    ∃ e o, fetchTryBlock (FetchResult.exn "TypeError: failed to fetch") none sampleRow =
        Except.error e ∧
      fetchTokenData (FetchResult.exn "TypeError: failed to fetch") none sampleRow =
        Except.ok o ∧
      o.toasts = [e] ∧
      o.updatedRow.tokenName = dictionary.wrongTokenId :=
  fetchTokenData_failure_toasts_and_marks_row (FetchResult.exn "TypeError: failed to fetch")
    none sampleRow rfl

/-- Claim C3: every successful lookup enriches the row: `tokenName` becomes the
payload's `name` and `isNFT` is set iff the payload's `type` equals
`NON_FUNGIBLE_UNIQUE`. -/
theorem fetchTokenData_success_enriches_row (data : TokenDetails)
    (tokenDetailsList : Option (List TokenDetails)) (formData : FormRow) :
    ∃ o, fetchTokenData (FetchResult.ok data) tokenDetailsList formData = Except.ok o ∧
      o.updatedRow.tokenName = data.name ∧
      (o.updatedRow.isNFT = true ↔ data.type = "NON_FUNGIBLE_UNIQUE") := by
  refine ⟨_, rfl, rfl, ?_⟩
  simp [fetchTokenData, fetchTryBlock]

/-- Claim C4: an event issues the single metadata-lookup request iff it is a
blur with a non-empty token id accepted by `isValidTokenId`; such a blur fetches
exactly the token-lookup URL, and no other event fetches anything. -/
theorem fetch_only_on_blur_of_valid_token_id (ev : RowEvent)
    (tokenDetailsList : Option (List TokenDetails)) (formData : FormRow) :
    (eventRequests ev tokenDetailsList formData ≠ [] ↔
      ∃ tokenId resp, ev = RowEvent.blurEvent tokenId resp ∧
        tokenId ≠ "" ∧ isValidTokenId tokenId = true) ∧
    (∀ tokenId resp, ev = RowEvent.blurEvent tokenId resp →
      eventRequests ev tokenDetailsList formData ≠ [] →
      eventRequests ev tokenDetailsList formData =
        [nodeUrl ++ "/api/v1/tokens/" ++ tokenId]) := by
  cases ev with
  | blurEvent tokenId resp =>
      simp only [eventRequests, handleTokenIdBlur_requests]
      by_cases hc : (tokenId != "" && isValidTokenId tokenId) = true
      · rw [if_pos hc]
        simp only [Bool.and_eq_true, bne_iff_ne, ne_eq] at hc
        constructor
        · constructor
          · intro _
            exact ⟨tokenId, resp, rfl, hc.1, hc.2⟩
          · intro _
            simp
        · intro t r heq _
          injection heq with h1 _
          rw [h1]
      · rw [if_neg hc]
        simp only [Bool.and_eq_true, bne_iff_ne, ne_eq, not_and] at hc
        constructor
        · constructor
          · intro h
            exact absurd rfl h
          · rintro ⟨t, r, heq, hne, hval⟩
            injection heq with h1 _
            subst h1
            exact (hc hne hval).elim
        · intro t r _ hreq
          exact absurd rfl hreq
  | changeEvent tokenId => simp [eventRequests]
  | switchToggle b => simp [eventRequests]
  | submitEvent => simp [eventRequests]

/-- Witness for C4: a valid blur fetches exactly the lookup URL. -/
theorem fetch_only_on_blur_of_valid_token_id_witness :
    eventRequests (RowEvent.blurEvent "0.0.1234" (FetchResult.ok sampleToken)) none sampleRow =
      [nodeUrl ++ "/api/v1/tokens/" ++ "0.0.1234"] :=
  (fetch_only_on_blur_of_valid_token_id
      (RowEvent.blurEvent "0.0.1234" (FetchResult.ok sampleToken)) none sampleRow).2
    "0.0.1234" (FetchResult.ok sampleToken) rfl
    (by
      rw [(fetch_only_on_blur_of_valid_token_id
        (RowEvent.blurEvent "0.0.1234" (FetchResult.ok sampleToken)) none sampleRow).1]
      exact ⟨"0.0.1234", FetchResult.ok sampleToken, rfl, by decide, by decide⟩)

/-- Claim C5: the time-window filter widgets (duration-mode switch, duration
number input, duration-type select, date picker) are rendered only when the
row's `isNFT` flag is true; a fungible-token row renders only the token-id and
minimum-amount inputs. -/
theorem duration_widgets_rendered_only_for_nft (row : FormRow) :
    (row.isNFT = false → renderRow row = [Widget.tokenIdInput, Widget.minAmountInput]) ∧
    (∀ w, w ∈ renderRow row → w.isDurationWidget = true → row.isNFT = true) := by
  rcases row with ⟨tid, ma, tn, nft, ds, dt, col, dur⟩
  constructor
  · intro h
    cases nft
    · rfl
    · simp at h
  · intro w hw hdw
    cases nft
    · cases w <;> simp_all [renderRow, Widget.isDurationWidget]
    · rfl

/-- Witness for C5: a fungible row renders only the two unconditional inputs. -/
theorem duration_widgets_rendered_only_for_nft_witness :
    renderRow sampleRow = [Widget.tokenIdInput, Widget.minAmountInput] :=
  (duration_widgets_rendered_only_for_nft sampleRow).1 rfl

/-- Claim C6: the lookup is best-effort: `fetchTokenData` resolves on every
request outcome (it returns the payload on success and nothing on failure, and
never rejects), so the `catch` branch of `handleTokenIdBlur` is unreachable. -/
theorem fetchTokenData_never_throws (tokenId : String) (resp : FetchResult)
    (tokenDetailsList : Option (List TokenDetails)) (formData : FormRow) :
    (∃ o, fetchTokenData resp tokenDetailsList formData = Except.ok o ∧
      (∀ data, resp = FetchResult.ok data → o.result = some data) ∧
      (resp.isFailure = true → o.result = none)) ∧
    (handleTokenIdBlur tokenId resp tokenDetailsList formData).catchReached = false := by
  constructor
  · cases resp with
    | ok data =>
        refine ⟨_, rfl, ?_, ?_⟩
        · intro d hd
          injection hd with h1
          rw [h1]
        · intro h
          simp [FetchResult.isFailure] at h
    | httpError status =>
        refine ⟨_, rfl, ?_, ?_⟩
        · intro d hd
          exact FetchResult.noConfusion hd
        · intro _
          rfl
    | exn message =>
        refine ⟨_, rfl, ?_, ?_⟩
        · intro d hd
          exact FetchResult.noConfusion hd
        · intro _
          rfl
  · obtain ⟨o, ho⟩ := fetchTokenData_ok resp tokenDetailsList formData
    by_cases hc : (tokenId != "" && isValidTokenId tokenId) = true
    · simp [handleTokenIdBlur, hc, ho]
    · simp [handleTokenIdBlur, hc]

/-- Witness for C6 at a concrete failing request. -/
theorem fetchTokenData_never_throws_witness :
    ∃ o, fetchTokenData (FetchResult.httpError 404) none sampleRow = Except.ok o ∧
      o.result = none :=
  match fetchTokenData_never_throws "0.0.1234" (FetchResult.httpError 404) none sampleRow with
  | ⟨⟨o, hok, _, hfail⟩, _⟩ => ⟨o, hok, hfail rfl⟩

/-- Claim C7 as stated is false: `HoldersFormProps` supplies four caller-side
state-setter callbacks, not three. -/
theorem holdersFormProps_not_three_setters : ¬ stateSetterCount = 3 := by decide

/-- Claim C7 (amended): the outward contract's caller-supplied state-setter
callbacks are exactly the four `setFormData`, `setData`, `setShouldFetch` and
`setTokenDetailsList`. -/
theorem holdersFormProps_four_setters :
    stateSetterCount = 4 ∧
      (holdersFormProps.filter (fun p => p.2 == PropKind.stateSetter)).map Prod.fst =
        ["setFormData", "setData", "setShouldFetch", "setTokenDetailsList"] := by
  constructor
  · rfl
  · rfl

/-- Claim C8: every row update by `fetchTokenData` preserves the captured
`tokenId`, `minAmount`, `isDurationSelect`, `duration`, `isCollapsed` and
`durationType`; on failure `isNFT` is preserved as well, so only `tokenName`
(and, on success, `isNFT`) may change. -/
theorem fetchTokenData_frame (resp : FetchResult)
    (tokenDetailsList : Option (List TokenDetails)) (formData : FormRow) :
    ∃ o, fetchTokenData resp tokenDetailsList formData = Except.ok o ∧
      o.updatedRow.tokenId = formData.tokenId ∧
      o.updatedRow.minAmount = formData.minAmount ∧
      o.updatedRow.isDurationSelect = formData.isDurationSelect ∧
      o.updatedRow.duration = formData.duration ∧
      o.updatedRow.isCollapsed = formData.isCollapsed ∧
      o.updatedRow.durationType = formData.durationType ∧
      (resp.isFailure = true → o.updatedRow.isNFT = formData.isNFT) := by
  cases resp with
  | ok data =>
      exact ⟨_, rfl, rfl, rfl, rfl, rfl, rfl, rfl,
        fun h => by simp [FetchResult.isFailure] at h⟩
  | httpError status => exact ⟨_, rfl, rfl, rfl, rfl, rfl, rfl, rfl, fun _ => rfl⟩
  | exn message => exact ⟨_, rfl, rfl, rfl, rfl, rfl, rfl, rfl, fun _ => rfl⟩

/-- Witness for C8 at a concrete failure: the `isNFT` flag is preserved. -/
theorem fetchTokenData_frame_witness :
    ∃ o, fetchTokenData (FetchResult.exn "boom") none sampleRow = Except.ok o ∧
      o.updatedRow.tokenId = sampleRow.tokenId ∧ o.updatedRow.isNFT = sampleRow.isNFT :=
  match fetchTokenData_frame (FetchResult.exn "boom") none sampleRow with
  | ⟨o, hok, h1, _, _, _, _, _, h8⟩ => ⟨o, hok, h1, h8 rfl⟩

/-- Claim C9: a successful lookup calls `setTokenDetailsList` with the previous
list extended by the fetched payload appended at the end (a one-element list
when the previous list was `undefined`); nothing is removed or deduplicated, so
a repeated payload's multiplicity grows by exactly one. -/
theorem setTokenDetailsList_appends (data : TokenDetails)
    (tokenDetailsList : Option (List TokenDetails)) (formData : FormRow) :
    ∃ o, fetchTokenData (FetchResult.ok data) tokenDetailsList formData = Except.ok o ∧
      o.tokenDetailsListSet = some (tokenDetailsList.getD [] ++ [data]) ∧
      ∀ l, o.tokenDetailsListSet = some l →
        l.count data = (tokenDetailsList.getD []).count data + 1 ∧
        ∀ x, x ≠ data → l.count x = (tokenDetailsList.getD []).count x := by
  refine ⟨_, rfl, ?_⟩
  have hset : (match tokenDetailsList with
      | some l => l ++ [data]
      | none => [data]) = tokenDetailsList.getD [] ++ [data] := by
    cases tokenDetailsList <;> rfl
  refine ⟨by simp only [hset], ?_⟩
  intro l hl
  simp only [hset, Option.some.injEq] at hl
  subst hl
  constructor
  · simp [List.count_append]
  · intro x hx
    simp [List.count_append, List.count_singleton, hx]

/-- Witness for C9: appending to a list that already holds the payload. -/
theorem setTokenDetailsList_appends_witness :
    ∃ o, fetchTokenData (FetchResult.ok sampleToken) (some [sampleToken]) sampleRow =
        Except.ok o ∧
      o.tokenDetailsListSet = some [sampleToken, sampleToken] ∧
      ∀ l, o.tokenDetailsListSet = some l → l.count sampleToken = 2 :=
  match setTokenDetailsList_appends sampleToken (some [sampleToken]) sampleRow with
  | ⟨o, hok, hset, hcount⟩ =>
      ⟨o, hok, hset, fun l hl => by
        have := (hcount l hl).1
        simpa using this⟩

/-- Claim C10: `handleTokenIdChange` resets the row's `tokenName` to the empty
string (preserving every other field) iff the new token id is empty; on any
non-empty token id it performs no update at all. -/
theorem handleTokenIdChange_resets_iff_empty (tokenId : String) (formData : FormRow) :
    (tokenId = "" → handleTokenIdChange tokenId formData =
        some { formData with tokenName := "" }) ∧
    (tokenId ≠ "" → handleTokenIdChange tokenId formData = none) := by
  constructor
  · intro h
    subst h
    simp [handleTokenIdChange, isValidTokenId_empty]
  · intro h
    simp [handleTokenIdChange, h]

/-- Witness for C10: both the empty and a non-empty token id, concretely. -/
theorem handleTokenIdChange_resets_iff_empty_witness :
    handleTokenIdChange "" sampleRow = some { sampleRow with tokenName := "" } ∧
    handleTokenIdChange "0.0.1234" sampleRow = none :=
  ⟨(handleTokenIdChange_resets_iff_empty "" sampleRow).1 rfl,
   (handleTokenIdChange_resets_iff_empty "0.0.1234" sampleRow).2 (by decide)⟩

end HoldersForm
